import Mathlib

/-!
Shallow embedding of the inventory-agent tool (`src/Inv-Agent/main.py`).

The SQLite table `inventory (id INTEGER PRIMARY KEY AUTOINCREMENT, name TEXT
NOT NULL, quantity INTEGER NOT NULL)` is modelled as a list of rows held in
rowid order (SQLite stores table rows in a B-tree keyed by the integer
primary key, so a full scan `SELECT * FROM inventory` yields rows in `id`
order) together with the AUTOINCREMENT sequence counter `nextId` (the next
rowid to assign; AUTOINCREMENT never reuses an id within a store lifetime).

The tool `manageInventory` is embedded as a pure function of the request,
the durable store state, and a fault oracle `fault : Option String` that
models an exception raised by the store engine at the point where the
operation's SQL statement executes (I/O error, constraint violation).  The
body of the Python `try:` block is `manageInventoryRaw`, returning
`Except String (String × Store)` where `.error msg` models a raised
exception; the surrounding `except`/`finally` of the Python function is the
`manageInventory` wrapper, which converts a raised exception to the string
`"Error: " ++ msg` and closes the connection without committing, so the
durable store seen afterwards is the original one (implicit rollback).
-/

/-- One row of the `inventory` table. -/
structure Row where
  id : Int
  name : String
  quantity : Int
deriving DecidableEq

/-- The durable store: rows in rowid (= `id`) order plus the AUTOINCREMENT
sequence value (next id to assign). -/
structure Store where
  rows : List Row
  nextId : Int
deriving DecidableEq

/-- A fresh store, as produced by `init_db` on an absent database file:
no rows, AUTOINCREMENT starts assigning at 1. -/
def initStore : Store := ⟨[], 1⟩

/-- The `InventoryItemInput` dataclass: `operation` is required, the other
fields default to Python `None`, modelled as `Option`. -/
structure Item where
  operation : String
  id : Option Int
  name : Option String
  quantity : Option Int
deriving DecidableEq

/-- Python `str.lower()` (the operation strings involved are ASCII). -/
def pyLower (s : String) : String :=
  ⟨s.data.map Char.toLower⟩

/-- Python truthiness test `not item.name` on an optional string:
true for `None` and for the empty string. -/
def pyFalsy : Option String → Bool
  | none => true
  | some s => s == ""

/-- Effect of `INSERT INTO inventory (name, quantity) VALUES (?, ?)` followed
by commit: the new row receives the sequence value as id and is appended at
the end of the B-tree (largest rowid), and the sequence advances. -/
def insertRow (s : Store) (n : String) (q : Int) : Store :=
  ⟨s.rows ++ [⟨s.nextId, n, q⟩], s.nextId + 1⟩

/-- Effect of `UPDATE inventory SET name = ?, quantity = ? WHERE id = ?`:
rows with matching id are overwritten in place, ids and order untouched. -/
def updateRow (s : Store) (i : Int) (n : String) (q : Int) : Store :=
  ⟨s.rows.map (fun r => if r.id == i then ⟨r.id, n, q⟩ else r), s.nextId⟩

/-- Effect of `DELETE FROM inventory WHERE id = ?`: matching rows removed. -/
def deleteRow (s : Store) (i : Int) : Store :=
  ⟨s.rows.filter (fun r => r.id != i), s.nextId⟩

/-- `rowcount` reported for an UPDATE/DELETE statement with `WHERE id = ?`:
the number of rows whose id matches. -/
def rowcount (s : Store) (i : Int) : Nat :=
  (s.rows.filter (fun r => r.id == i)).length

/-- The message `f"Error: Item with ID {item.id} not found."`. -/
def notFoundMsg (i : Int) : String :=
  "Error: Item with ID " ++ toString i ++ " not found."

/-- The body of the `try:` block of `manageInventory` (after
`operation = item.operation.lower()`), with `.error msg` modelling an
exception raised by the store engine while executing the operation's SQL
statement.  Validation failures and the unknown-operation case are plain
`return`s, hence `.ok`; they never reach the store, so the fault oracle is
irrelevant there. -/
def manageInventoryRaw (item : Item) (store : Store) (fault : Option String) :
    Except String (String × Store) :=
  let operation := pyLower item.operation
  if operation = "add" then
    if pyFalsy item.name || item.quantity == none then
      .ok ("Error: Name and quantity are required for adding an item.", store)
    else
      match fault with
      | some msg => .error msg
      | none =>
        let n := item.name.getD ""
        let q := item.quantity.getD 0
        .ok ("Added " ++ n ++ " with ID " ++ toString store.nextId ++
              " and quantity " ++ toString q ++ ".", insertRow store n q)
  else if operation = "update" then
    if item.id == none || pyFalsy item.name || item.quantity == none then
      .ok ("Error: ID, name, and quantity are required for updating an item.", store)
    else
      match fault with
      | some msg => .error msg
      | none =>
        let i := item.id.getD 0
        let n := item.name.getD ""
        let q := item.quantity.getD 0
        if rowcount store i = 0 then
          .ok (notFoundMsg i, store)
        else
          .ok ("Updated item ID " ++ toString i ++ " to " ++ n ++
                " with quantity " ++ toString q ++ ".", updateRow store i n q)
  else if operation = "delete" then
    if item.id == none then
      .ok ("Error: ID is required for deleting an item.", store)
    else
      match fault with
      | some msg => .error msg
      | none =>
        let i := item.id.getD 0
        if rowcount store i = 0 then
          .ok (notFoundMsg i, store)
        else
          .ok ("Deleted item ID " ++ toString i ++ ".", deleteRow store i)
  else
    .ok ("Error: Invalid operation. Use 'add', 'update', or 'delete'.", store)

/-- The full `manageInventory` tool: the `except Exception as e` clause turns
a raised exception into `f"Error: {str(e)}"`, and the `finally: conn.close()`
discards the uncommitted transaction, so the durable store is unchanged on
the exception path. -/
def manageInventory (item : Item) (store : Store) (fault : Option String) :
    String × Store :=
  match manageInventoryRaw item store fault with
  | .ok p => p
  | .error e => ("Error: " ++ e, store)

/-- The whole Python function as the caller sees it, prologue included.
Before the `try:` block the function runs `print`, `item.operation.lower()`,
`sqlite3.connect(DB_PATH)` and `conn.cursor()`; the two store calls can
raise (for example an I/O fault opening the database file), and no handler
covers them, so such an exception propagates uncaught to the caller.  The
oracle `connectFault` models a fault raised in that prologue: `.error`
here is an exception escaping the tool.  With no prologue fault the
`try`/`except`/`finally` wrapper `manageInventory` runs and its string
result is returned normally. -/
def manageInventoryCall (item : Item) (store : Store)
    (connectFault : Option String) (fault : Option String) :
    Except String (String × Store) :=
  match connectFault with
  | some e => .error e
  | none => .ok (manageInventory item store fault)

/-- `fetch_inventory`: `SELECT * FROM inventory`, rows in rowid order. -/
def fetch_inventory (store : Store) : List Row :=
  store.rows

/-- Python substring membership `needle in hay`, on character lists. -/
def containsSub (needle : List Char) : List Char → Bool
  | [] => needle.isEmpty
  | c :: t => needle.isPrefixOf (c :: t) || containsSub needle t

/-- Python `needle in hay` on strings. -/
def pyIn (needle hay : String) : Bool :=
  containsSub needle.data hay.data

/-- The final-output check in `main`:
`if result.final_output and "is inventory" in result.final_output`. -/
def shouldListInventory (finalOutput : String) : Bool :=
  (finalOutput != "") && pyIn "is inventory" finalOutput

/-- One printed row of the inventory listing:
`f"ID: {row[0]}, Name: {row[1]}, Quantity: {row[2]}"`. -/
def renderRow (r : Row) : String :=
  "ID: " ++ toString r.id ++ ", Name: " ++ r.name ++ ", Quantity: " ++ toString r.quantity

/-- The tail of `main`: when the final output passes `shouldListInventory`,
the current inventory is fetched and each row rendered; otherwise nothing
is listed. -/
def mainListing (finalOutput : String) (store : Store) : Option (List String) :=
  if shouldListInventory finalOutput then
    some ((fetch_inventory store).map renderRow)
  else
    none

/-- Modelled from the spec: the structured `FinalSummary` the orchestration
instructions require of the model collaborator (`classification` tag named
`response_type`, drawn from "is inventory" / "not inventory", plus a
free-text summary field `inventory_data`).  The code itself never parses
this structure (`output_type` is commented out); the collaborator renders
it as text in the instructed format, which is what `main` inspects. -/
structure FinalSummary where
  response_type : String
  inventory_data : String
deriving DecidableEq

/-- Modelled from the spec: the textual rendering of a `FinalSummary` in the
format fixed by the agent instructions:
`"response_type": "<...>",` newline `"inventory_data": "<...>"`. -/
def renderSummary (s : FinalSummary) : String :=
  "\"response_type\": \"" ++ s.response_type ++ "\",\n\"inventory_data\": \"" ++
    s.inventory_data ++ "\""

/-- Store invariant: rows sit in strictly increasing id order (the rowid
B-tree of the `inventory` table) and every stored id is below the
AUTOINCREMENT cursor. -/
def StoreInv (s : Store) : Prop :=
  s.rows.Pairwise (fun a b => a.id < b.id) ∧ ∀ r ∈ s.rows, r.id < s.nextId

/-- Run a sequence of tool invocations (each with its own fault oracle)
against a store, keeping only the final durable state. -/
def applyOps : List (Item × Option String) → Store → Store
  | [], s => s
  | (it, f) :: rest, s => applyOps rest (manageInventory it s f).2

/-- The request the agent instructions prescribe for creating a record:
operation `'add'` with a name and a quantity, no id. -/
def addItem (n : String) (q : Int) : Item :=
  ⟨"add", none, some n, some q⟩

/-- Issue one `add` request per `(name, quantity)` pair, in sequence,
collecting the `lastrowid` each successful insert reports (the sequence
value at the moment of the insert) together with the final store. -/
def createN : List (String × Int) → Store → List Int × Store
  | [], s => ([], s)
  | (n, q) :: rest, s =>
    let out := createN rest (manageInventory (addItem n q) s none).2
    (s.nextId :: out.1, out.2)

/-! ## Helper lemmas -/

/-- Shape of every successful run of the try-block body: the resulting store
is the input store (validation failure, unknown operation, not-found) or the
effect of exactly one SQL statement of the kind the request named. -/
theorem raw_shape (item : Item) (s : Store) (fault : Option String) :
    ∀ m st, manageInventoryRaw item s fault = .ok (m, st) →
      st = s ∨
      (pyLower item.operation = "add" ∧ ∃ n q, st = insertRow s n q) ∨
      (∃ i n q, item.id = some i ∧ pyLower item.operation = "update" ∧
        st = updateRow s i n q) ∨
      (∃ i, item.id = some i ∧ pyLower item.operation = "delete" ∧
        st = deleteRow s i) := by
  intro m st h
  unfold manageInventoryRaw at h
  by_cases h1 : pyLower item.operation = "add"
  · rw [if_pos h1] at h
    by_cases h2 : (pyFalsy item.name || item.quantity == none) = true
    · rw [if_pos h2] at h
      cases h
      exact .inl rfl
    · rw [if_neg h2] at h
      cases fault with
      | some msg => cases h
      | none =>
        cases h
        exact .inr (.inl ⟨h1, _, _, rfl⟩)
  · rw [if_neg h1] at h
    by_cases h3 : pyLower item.operation = "update"
    · rw [if_pos h3] at h
      by_cases h4 : (item.id == none || pyFalsy item.name || item.quantity == none) = true
      · rw [if_pos h4] at h
        cases h
        exact .inl rfl
      · rw [if_neg h4] at h
        cases fault with
        | some msg => cases h
        | none =>
          have hid : ∃ i, item.id = some i := by
            cases hi : item.id with
            | none => simp [hi] at h4
            | some i => exact ⟨i, rfl⟩
          obtain ⟨i, hi⟩ := hid
          rw [hi] at h
          simp only [Option.getD_some] at h
          by_cases h5 : rowcount s i = 0
          · rw [if_pos h5] at h
            cases h
            exact .inl rfl
          · rw [if_neg h5] at h
            cases h
            exact .inr (.inr (.inl ⟨i, _, _, hi, h3, rfl⟩))
    · rw [if_neg h3] at h
      by_cases h6 : pyLower item.operation = "delete"
      · rw [if_pos h6] at h
        by_cases h7 : (item.id == none) = true
        · rw [if_pos h7] at h
          cases h
          exact .inl rfl
        · rw [if_neg h7] at h
          cases fault with
          | some msg => cases h
          | none =>
            have hid : ∃ i, item.id = some i := by
              cases hi : item.id with
              | none => simp [hi] at h7
              | some i => exact ⟨i, rfl⟩
            obtain ⟨i, hi⟩ := hid
            rw [hi] at h
            simp only [Option.getD_some] at h
            by_cases h5 : rowcount s i = 0
            · rw [if_pos h5] at h
              cases h
              exact .inl rfl
            · rw [if_neg h5] at h
              cases h
              exact .inr (.inr (.inr ⟨i, hi, h6, rfl⟩))
      · rw [if_neg h6] at h
        cases h
        exact .inl rfl

/-- On a successful try-block run the tool returns exactly its pair. -/
theorem manage_store_eq (item : Item) (s : Store) (fault : Option String) :
    ∀ m st, manageInventoryRaw item s fault = .ok (m, st) →
      (manageInventory item s fault).2 = st := by
  intro m st h
  simp [manageInventory, h]

/-- On an exception the durable store is the original one (rollback at
connection close). -/
theorem manage_store_fault (item : Item) (s : Store) (fault : Option String) :
    ∀ e, manageInventoryRaw item s fault = .error e →
      (manageInventory item s fault).2 = s := by
  intro e h
  simp [manageInventory, h]

theorem storeInv_insertRow (s : Store) (n : String) (q : Int) (hs : StoreInv s) :
    StoreInv (insertRow s n q) := by
  obtain ⟨hp, hb⟩ := hs
  constructor
  · rw [insertRow, List.pairwise_append]
    refine ⟨hp, by simp, ?_⟩
    intro a ha b hb'
    simp at hb'
    rw [hb']
    exact hb a ha
  · intro r hr
    rw [insertRow] at hr
    simp at hr
    rcases hr with hr | hr
    · exact lt_trans (hb r hr) (by simp [insertRow])
    · simp [insertRow, hr]

theorem storeInv_updateRow (s : Store) (i : Int) (n : String) (q : Int)
    (hs : StoreInv s) : StoreInv (updateRow s i n q) := by
  obtain ⟨hp, hb⟩ := hs
  have hmap : (updateRow s i n q).rows.map Row.id = s.rows.map Row.id := by
    rw [updateRow]
    rw [List.map_map]
    apply List.map_congr_left
    intro a _
    simp only [Function.comp]
    split <;> rfl
  constructor
  · have h1 : List.Pairwise (· < ·) ((updateRow s i n q).rows.map Row.id) := by
      rw [hmap]
      exact List.pairwise_map.mpr hp
    exact List.pairwise_map.mp h1
  · intro r hr
    rw [updateRow] at hr
    simp only [List.mem_map] at hr
    obtain ⟨r0, hr0, hfr⟩ := hr
    have hrid : r.id = r0.id := by
      rw [← hfr]
      split <;> rfl
    have : (updateRow s i n q).nextId = s.nextId := rfl
    rw [this, hrid]
    exact hb r0 hr0

theorem storeInv_deleteRow (s : Store) (i : Int) (hs : StoreInv s) :
    StoreInv (deleteRow s i) := by
  obtain ⟨hp, hb⟩ := hs
  constructor
  · exact hp.sublist (List.filter_sublist s.rows)
  · intro r hr
    rw [deleteRow] at hr
    exact hb r (List.mem_of_mem_filter hr)

/-- Every tool invocation preserves the store invariant. -/
theorem storeInv_manage (item : Item) (s : Store) (fault : Option String)
    (hs : StoreInv s) : StoreInv (manageInventory item s fault).2 := by
  cases hraw : manageInventoryRaw item s fault with
  | error e => rw [manage_store_fault item s fault e hraw]; exact hs
  | ok p =>
    obtain ⟨m, st⟩ := p
    rw [manage_store_eq item s fault m st hraw]
    rcases raw_shape item s fault m st hraw with
      h | ⟨_, n, q, h⟩ | ⟨i, n, q, _, _, h⟩ | ⟨i, _, _, h⟩
    · rw [h]; exact hs
    · rw [h]; exact storeInv_insertRow s n q hs
    · rw [h]; exact storeInv_updateRow s i n q hs
    · rw [h]; exact storeInv_deleteRow s i hs

theorem storeInv_initStore : StoreInv initStore := by
  constructor <;> simp [initStore]

theorem storeInv_applyOps (ops : List (Item × Option String)) (s : Store)
    (hs : StoreInv s) : StoreInv (applyOps ops s) := by
  induction ops generalizing s with
  | nil => exact hs
  | cons p rest ih =>
    obtain ⟨it, f⟩ := p
    exact ih _ (storeInv_manage it s f hs)

theorem mem_updateRow_iff (s : Store) (i : Int) (n : String) (q : Int) (r : Row)
    (hne : r.id ≠ i) : r ∈ (updateRow s i n q).rows ↔ r ∈ s.rows := by
  rw [updateRow]
  simp only [List.mem_map]
  constructor
  · rintro ⟨r0, hr0, hfr⟩
    by_cases h : r0.id = i
    · rw [if_pos (by simpa using h)] at hfr
      exfalso
      apply hne
      rw [← hfr, ← h]
    · rw [if_neg (by simpa using h)] at hfr
      rw [← hfr]
      exact hr0
  · intro hr
    exact ⟨r, hr, by rw [if_neg (by simpa using hne)]⟩

theorem mem_deleteRow_iff (s : Store) (i : Int) (r : Row)
    (hne : r.id ≠ i) : r ∈ (deleteRow s i).rows ↔ r ∈ s.rows := by
  rw [deleteRow]
  simp only [List.mem_filter]
  constructor
  · exact fun h => h.1
  · intro hr
    exact ⟨hr, by simpa using hne⟩

/-- A well-formed `add` request inserts and reports the assigned id. -/
theorem add_step (s : Store) (n : String) (q : Int) (hne : n ≠ "") :
    manageInventory (addItem n q) s none =
      ("Added " ++ n ++ " with ID " ++ toString s.nextId ++ " and quantity " ++
        toString q ++ ".", insertRow s n q) := by
  have hop : pyLower "add" = "add" := by decide
  simp [manageInventory, manageInventoryRaw, hop, addItem, pyFalsy, hne]

/-- An `add` request with an empty name fails validation, store untouched. -/
theorem add_step_empty (s : Store) (q : Int) :
    manageInventory (addItem "" q) s none =
      ("Error: Name and quantity are required for adding an item.", s) := by
  have hop : pyLower "add" = "add" := by decide
  simp [manageInventory, manageInventoryRaw, hop, addItem, pyFalsy]

/-- A run of `add` requests never removes an existing row. -/
theorem createN_preserves_rows (reqs : List (String × Int)) (s : Store) (r : Row)
    (hr : r ∈ s.rows) : r ∈ (createN reqs s).2.rows := by
  induction reqs generalizing s with
  | nil => exact hr
  | cons p rest ih =>
    obtain ⟨n, q⟩ := p
    by_cases hne : n = ""
    · subst hne
      rw [createN]
      simp only [add_step_empty]
      exact ih s hr
    · rw [createN]
      simp only [add_step s n q hne]
      apply ih
      rw [insertRow]
      simp [hr]

/-- Induction core for id monotonicity: ids handed out by a run of `add`
requests are strictly increasing, bounded below by the starting sequence
value, and each assigned id is present in the final store. -/
theorem createN_spec (reqs : List (String × Int)) (s : Store)
    (h : ∀ p ∈ reqs, p.1 ≠ "") :
    (createN reqs s).1.Pairwise (· < ·) ∧
    (∀ i ∈ (createN reqs s).1, s.nextId ≤ i) ∧
    (∀ i ∈ (createN reqs s).1, i ∈ (createN reqs s).2.rows.map Row.id) := by
  induction reqs generalizing s with
  | nil => refine ⟨by simp [createN], by simp [createN], by simp [createN]⟩
  | cons p rest ih =>
    obtain ⟨n, q⟩ := p
    have hne : n ≠ "" := h (n, q) (by simp)
    have hrest : ∀ p ∈ rest, p.1 ≠ "" := fun p hp => h p (by simp [hp])
    have hstep := add_step s n q hne
    have hnext : (manageInventory (addItem n q) s none).2.nextId = s.nextId + 1 := by
      rw [hstep]
      rfl
    obtain ⟨ih1, ih2, ih3⟩ := ih (manageInventory (addItem n q) s none).2 hrest
    rw [hnext] at ih2
    constructor
    · rw [createN]
      simp only [List.pairwise_cons]
      refine ⟨?_, ih1⟩
      intro i hi
      have := ih2 i hi
      omega
    constructor
    · rw [createN]
      simp only [List.mem_cons]
      rintro i (rfl | hi)
      · exact le_refl _
      · have := ih2 i hi
        omega
    · rw [createN]
      simp only [List.mem_cons]
      rintro i (rfl | hi)
      · have hmem : (⟨s.nextId, n, q⟩ : Row) ∈
            (createN rest (manageInventory (addItem n q) s none).2).2.rows := by
          apply createN_preserves_rows
          rw [hstep]
          rw [insertRow]
          simp
        simp only [List.mem_map]
        exact ⟨⟨s.nextId, n, q⟩, hmem, rfl⟩
      · exact ih3 i hi

theorem createN_length (reqs : List (String × Int)) (s : Store) :
    (createN reqs s).1.length = reqs.length := by
  induction reqs generalizing s with
  | nil => rfl
  | cons p rest ih =>
    obtain ⟨n, q⟩ := p
    rw [createN]
    simp [ih]

theorem isPrefixOf_append_self (n sfx : List Char) : n.isPrefixOf (n ++ sfx) = true := by
  induction n with
  | nil => cases sfx <;> rfl
  | cons c t ih => simp [List.isPrefixOf, ih]

theorem containsSub_here (n sfx : List Char) : containsSub n (n ++ sfx) = true := by
  cases h : n ++ sfx with
  | nil =>
    have hn : n = [] := by
      cases n with
      | nil => rfl
      | cons c t => simp at h
    rw [hn]
    rfl
  | cons c t =>
    simp only [containsSub]
    rw [← h]
    simp [isPrefixOf_append_self]

theorem containsSub_cons (n : List Char) (c : Char) (t : List Char)
    (h : containsSub n t = true) : containsSub n (c :: t) = true := by
  rw [containsSub, h]
  simp

/-- A needle occurring anywhere in the middle of a character list is found. -/
theorem containsSub_middle (pre n sfx : List Char) :
    containsSub n (pre ++ (n ++ sfx)) = true := by
  induction pre with
  | nil => simpa using containsSub_here n sfx
  | cons c t ih => simpa using containsSub_cons n c (t ++ (n ++ sfx)) ih

theorem renderSummary_data (s : FinalSummary) :
    (renderSummary s).data =
      "\"response_type\": \"".data ++ (s.response_type.data ++
        ("\",\n\"inventory_data\": \"".data ++ (s.inventory_data.data ++ "\"".data))) := by
  simp [renderSummary, String.data_append, List.append_assoc]

/-! ## Claims -/

/-- Claim C1 (amended): for every request whose kind lowercases to one of
the code vocabulary add / update / delete with at least one required field
absent (name or quantity for add; id, name or quantity for update; id for
delete), the tool returns the fixed error message naming the full required
field set of that kind, and no store mutation is attempted: the store comes
back unchanged whatever the fault oracle says, because the store is never
reached. -/
theorem missing_fields_rejected (item : Item) (store : Store) (fault : Option String) :
    (pyLower item.operation = "add" →
      (pyFalsy item.name = true ∨ item.quantity = none) →
      manageInventory item store fault =
        ("Error: Name and quantity are required for adding an item.", store)) ∧
    (pyLower item.operation = "update" →
      (item.id = none ∨ pyFalsy item.name = true ∨ item.quantity = none) →
      manageInventory item store fault =
        ("Error: ID, name, and quantity are required for updating an item.", store)) ∧
    (pyLower item.operation = "delete" → item.id = none →
      manageInventory item store fault =
        ("Error: ID is required for deleting an item.", store)) := by
  refine ⟨?_, ?_, ?_⟩
  · intro hop h
    have hc : (pyFalsy item.name || item.quantity == none) = true := by
      rcases h with h | h <;> simp [h]
    simp [manageInventory, manageInventoryRaw, hop, hc]
  · intro hop h
    have hne : ¬ pyLower item.operation = "add" := by rw [hop]; decide
    have hc : (item.id == none || pyFalsy item.name || item.quantity == none) = true := by
      rcases h with h | h | h <;> simp [h]
    simp [manageInventory, manageInventoryRaw, hop, hne, hc]
  · intro hop h
    have hne : ¬ pyLower item.operation = "add" := by rw [hop]; decide
    have hne2 : ¬ pyLower item.operation = "update" := by rw [hop]; decide
    simp [manageInventory, manageInventoryRaw, hop, hne, hne2, h]

/-- Claim C1 witness: an add request lacking a name is rejected with the
fixed message and the fresh store is untouched. -/
theorem missing_fields_rejected_witness :
    manageInventory ⟨"add", none, none, some 5⟩ initStore none =
      ("Error: Name and quantity are required for adding an item.", initStore) :=
  (missing_fields_rejected ⟨"add", none, none, some 5⟩ initStore none).1
    (by decide) (Or.inl (by decide))

/-- Claim C1 counterexample: the claim as stated fails twice over.  A request
of the spec kind create with both required fields omitted is answered by the
unknown-operation message, which is not a missing-field error and names
neither omitted field; and an update request missing only the id is answered
by a message that also names the name field, which was present, so the
message does not name exactly the omitted fields. -/
theorem missing_fields_counterexample :
    ((manageInventory ⟨"create", none, none, none⟩ initStore none).1 =
        "Error: Invalid operation. Use 'add', 'update', or 'delete'." ∧
      pyIn "name" (manageInventory ⟨"create", none, none, none⟩ initStore none).1 = false ∧
      pyIn "quantity" (manageInventory ⟨"create", none, none, none⟩ initStore none).1 = false) ∧
    ((manageInventory ⟨"update", none, some "Widget", some 5⟩ initStore none).1 =
        "Error: ID, name, and quantity are required for updating an item." ∧
      pyIn "name" (manageInventory ⟨"update", none, some "Widget", some 5⟩ initStore none).1 = true) := by
  decide

/-- Claim C2 (amended): the create member of the closed vocabulary is spelled
add.  For every request whose kind lowercases to add with a nonempty name
and a present quantity, the executor inserts a new record with that name and
quantity, the store assigns the id (the AUTOINCREMENT sequence value), and
the result is the Added success message; the request is not rejected as an
unknown operation. -/
theorem add_inserts (item : Item) (store : Store) (n : String) (q : Int)
    (hop : pyLower item.operation = "add") (hn : item.name = some n) (hne : n ≠ "")
    (hq : item.quantity = some q) :
    manageInventory item store none =
      ("Added " ++ n ++ " with ID " ++ toString store.nextId ++ " and quantity " ++
        toString q ++ ".",
       ⟨store.rows ++ [⟨store.nextId, n, q⟩], store.nextId + 1⟩) := by
  simp [manageInventory, manageInventoryRaw, hop, hn, hq, pyFalsy, hne, insertRow]

/-- Claim C2 witness: Add (mixed case) of Bolt, quantity 10, on a fresh store
inserts id 1 and reports it. -/
theorem add_inserts_witness :
    manageInventory ⟨"Add", none, some "Bolt", some 10⟩ initStore none =
      ("Added Bolt with ID 1 and quantity 10.", ⟨[⟨1, "Bolt", 10⟩], 2⟩) := by
  have h := add_inserts ⟨"Add", none, some "Bolt", some 10⟩ initStore "Bolt" 10
    (by decide) rfl (by decide) rfl
  simpa [initStore] using h

/-- Claim C2 counterexample: a well-formed request whose kind is the literal
create of the spec vocabulary is rejected as an unknown operation and
nothing is inserted, contradicting the claim that such a request executes
an insert and is not rejected. -/
theorem create_rejected_as_unknown :
    manageInventory ⟨"create", none, some "Widget", some 5⟩ initStore none =
      ("Error: Invalid operation. Use 'add', 'update', or 'delete'.", initStore) ∧
    (manageInventory ⟨"create", none, some "Widget", some 5⟩ initStore none).2.rows = [] := by
  decide

/-- Claim C3: a well-formed update or delete request naming an id absent from
the store returns the not-found message for that id and hands back the store
exactly as it was. -/
theorem notFound_leaves_store (store : Store) (i : Int)
    (habs : ∀ r ∈ store.rows, r.id ≠ i) :
    (∀ item : Item, pyLower item.operation = "update" → item.id = some i →
      pyFalsy item.name = false → item.quantity ≠ none →
      manageInventory item store none = (notFoundMsg i, store)) ∧
    (∀ item : Item, pyLower item.operation = "delete" → item.id = some i →
      manageInventory item store none = (notFoundMsg i, store)) := by
  have hrc : rowcount store i = 0 := by
    rw [rowcount, List.length_eq_zero, List.filter_eq_nil_iff]
    intro r hr
    simpa using habs r hr
  constructor
  · intro item hop hid hname hq
    have hne : ¬ pyLower item.operation = "add" := by rw [hop]; decide
    simp [manageInventory, manageInventoryRaw, hop, hne, hid, hname, hq, hrc]
  · intro item hop hid
    have hne : ¬ pyLower item.operation = "add" := by rw [hop]; decide
    have hne2 : ¬ pyLower item.operation = "update" := by rw [hop]; decide
    simp [manageInventory, manageInventoryRaw, hop, hne, hne2, hid, hrc]

/-- Claim C3 witness: deleting id 2 from a store holding only id 1 reports
not found and leaves the store unchanged. -/
theorem notFound_leaves_store_witness :
    manageInventory ⟨"delete", some 2, none, none⟩ ⟨[⟨1, "Widget", 5⟩], 2⟩ none =
      (notFoundMsg 2, ⟨[⟨1, "Widget", 5⟩], 2⟩) :=
  (notFound_leaves_store ⟨[⟨1, "Widget", 5⟩], 2⟩ 2 (by decide)).2
    ⟨"delete", some 2, none, none⟩ (by decide) rfl

/-- Claim C4: when the store raises a fault during an operation, the executor
catches it and returns the Error string carrying the fault message with the
durable store rolled back to its original contents; and such a fault is
genuinely reachable: every add request that passes validation raises it when
the oracle fires. -/
theorem storeError_caught_rolled_back (store : Store) (msg : String) :
    (∀ item : Item, manageInventoryRaw item store (some msg) = Except.error msg →
      manageInventory item store (some msg) = ("Error: " ++ msg, store)) ∧
    (∀ item : Item, pyLower item.operation = "add" → pyFalsy item.name = false →
      item.quantity ≠ none →
      manageInventoryRaw item store (some msg) = Except.error msg) := by
  constructor
  · intro item h
    simp [manageInventory, h]
  · intro item hop hname hq
    unfold manageInventoryRaw
    rw [if_pos hop]
    have hc : ¬(pyFalsy item.name || item.quantity == none) = true := by
      simp [hname, hq]
    rw [if_neg hc]

/-- Claim C4 witness: a disk fault during a valid add comes back as the
converted error string with the fresh store intact. -/
theorem storeError_caught_rolled_back_witness :
    manageInventory ⟨"add", none, some "Widget", some 5⟩ initStore (some "disk I/O error") =
      ("Error: disk I/O error", initStore) :=
  (storeError_caught_rolled_back initStore "disk I/O error").1 _
    ((storeError_caught_rolled_back initStore "disk I/O error").2
      ⟨"add", none, some "Widget", some 5⟩ (by decide) (by decide) (by decide))

/-- Claim C5 (amended): the rendered listing decision is substring sniffing,
not a tag comparison.  Every summary whose classification tag is the literal
is inventory does make the classifier return true, because the rendered
summary then contains that substring; but the converse direction of the
claim fails, see the counterexample. -/
theorem classifier_true_of_is_inventory (s : FinalSummary)
    (h : s.response_type = "is inventory") :
    shouldListInventory (renderSummary s) = true := by
  have hd := renderSummary_data s
  rw [h] at hd
  have hpy : pyIn "is inventory" (renderSummary s) = true := by
    rw [pyIn, hd]
    exact containsSub_middle _ _ _
  have hne : renderSummary s ≠ "" := by
    intro he
    rw [he] at hd
    simp at hd
  rw [shouldListInventory, hpy]
  simp [hne]

/-- Claim C5 witness: a summary tagged is inventory triggers the listing. -/
theorem classifier_true_of_is_inventory_witness :
    shouldListInventory (renderSummary ⟨"is inventory", "Added Bolt."⟩) = true :=
  classifier_true_of_is_inventory ⟨"is inventory", "Added Bolt."⟩ rfl

/-- Claim C5 counterexample: a summary classified not inventory whose free
text happens to contain the substring is inventory also makes the classifier
return true, refuting the claim that it returns true only when the
classification tag equals is inventory. -/
theorem classifier_substring_counterexample :
    ("not inventory" ≠ "is inventory") ∧
    shouldListInventory (renderSummary ⟨"not inventory", "this is inventory chatter"⟩) = true := by
  decide

/-- Claim C6: whenever the classifier decides to render, the program fetches
and renders every current record, and on every store state reachable from a
fresh store by tool invocations the fetched rows carry strictly increasing
ids, so the listing is ordered by id ascending. -/
theorem listing_renders_sorted (out : String) (ops : List (Item × Option String))
    (h : shouldListInventory out = true) :
    mainListing out (applyOps ops initStore) =
      some ((fetch_inventory (applyOps ops initStore)).map renderRow) ∧
    ((fetch_inventory (applyOps ops initStore)).map Row.id).Pairwise (· < ·) := by
  constructor
  · simp [mainListing, h]
  · have hinv := storeInv_applyOps ops initStore storeInv_initStore
    rw [fetch_inventory]
    exact List.pairwise_map.mpr hinv.1

/-- Claim C6 witness: after two adds the listing renders both rows, in id
order. -/
theorem listing_renders_sorted_witness :
    shouldListInventory "is inventory" = true ∧
    (mainListing "is inventory"
        (applyOps [(⟨"add", none, some "Widget", some 5⟩, none),
          (⟨"add", none, some "Bolt", some 10⟩, none)] initStore) =
      some ((fetch_inventory
        (applyOps [(⟨"add", none, some "Widget", some 5⟩, none),
          (⟨"add", none, some "Bolt", some 10⟩, none)] initStore)).map renderRow) ∧
    ((fetch_inventory
        (applyOps [(⟨"add", none, some "Widget", some 5⟩, none),
          (⟨"add", none, some "Bolt", some 10⟩, none)] initStore)).map Row.id).Pairwise (· < ·)) :=
  ⟨by decide, listing_renders_sorted "is inventory"
    [(⟨"add", none, some "Widget", some 5⟩, none),
      (⟨"add", none, some "Bolt", some 10⟩, none)] (by decide)⟩

/-- Claim C7: creating N records in sequence yields N strictly increasing,
hence unique, ids, and every id handed out is retrievable by a read of the
final store.  Holds from any starting store state, so ids are monotonic and
never reused within a store lifetime. -/
theorem id_monotonicity (reqs : List (String × Int)) (s : Store)
    (h : ∀ p ∈ reqs, p.1 ≠ "") :
    (createN reqs s).1.length = reqs.length ∧
    (createN reqs s).1.Pairwise (· < ·) ∧
    (createN reqs s).1.Nodup ∧
    ∀ i ∈ (createN reqs s).1, i ∈ (fetch_inventory (createN reqs s).2).map Row.id := by
  obtain ⟨h1, h2, h3⟩ := createN_spec reqs s h
  refine ⟨createN_length reqs s, h1, ?_, ?_⟩
  · exact List.Pairwise.imp (fun hab => ne_of_lt hab) h1
  · intro i hi
    rw [fetch_inventory]
    exact h3 i hi

/-- Claim C7 witness: two creates on a fresh store yield ids 1 then 2, both
retrievable. -/
theorem id_monotonicity_witness :
    (∀ p ∈ [("Widget", (5 : Int)), ("Bolt", 10)], p.1 ≠ "") ∧
    ((createN [("Widget", (5 : Int)), ("Bolt", 10)] initStore).1.length =
        ([("Widget", (5 : Int)), ("Bolt", 10)] : List (String × Int)).length ∧
      (createN [("Widget", (5 : Int)), ("Bolt", 10)] initStore).1.Pairwise (· < ·) ∧
      (createN [("Widget", (5 : Int)), ("Bolt", 10)] initStore).1.Nodup ∧
      ∀ i ∈ (createN [("Widget", (5 : Int)), ("Bolt", 10)] initStore).1,
        i ∈ (fetch_inventory (createN [("Widget", (5 : Int)), ("Bolt", 10)] initStore).2).map Row.id) :=
  ⟨by decide, id_monotonicity [("Widget", (5 : Int)), ("Bolt", 10)] initStore (by decide)⟩

/-- Claim C8: the Widget round trip on a fresh store: create with quantity 5
then read gives id 1 with Widget and 5; update id 1 to quantity 9 then read
gives Widget and 9; delete id 1 then read finds no row with id 1. -/
theorem widget_round_trip :
    manageInventory ⟨"add", none, some "Widget", some 5⟩ initStore none
      = ("Added Widget with ID 1 and quantity 5.", ⟨[⟨1, "Widget", 5⟩], 2⟩) ∧
    fetch_inventory ⟨[⟨1, "Widget", 5⟩], 2⟩ = [⟨1, "Widget", 5⟩] ∧
    manageInventory ⟨"update", some 1, some "Widget", some 9⟩ ⟨[⟨1, "Widget", 5⟩], 2⟩ none
      = ("Updated item ID 1 to Widget with quantity 9.", ⟨[⟨1, "Widget", 9⟩], 2⟩) ∧
    fetch_inventory ⟨[⟨1, "Widget", 9⟩], 2⟩ = [⟨1, "Widget", 9⟩] ∧
    manageInventory ⟨"delete", some 1, none, none⟩ ⟨[⟨1, "Widget", 9⟩], 2⟩ none
      = ("Deleted item ID 1.", ⟨[], 2⟩) ∧
    (fetch_inventory ⟨[], 2⟩).filter (fun r => r.id == 1) = [] := by
  decide

/-- Claim C9 (amended): the tool is total only from the try boundary inward.
When the pre-try prologue raises no fault, the call returns a string result:
either the try-block body returned normally and that result is handed
through, or the body raised and the converted Error string comes back with
the durable store unchanged.  But a fault raised by the prologue itself
(opening the database, creating the cursor) propagates uncaught to the
caller, so the universal totality of the original claim does not hold. -/
theorem fault_handling_boundary (item : Item) (store : Store)
    (cf fault : Option String) :
    (cf = none →
      manageInventoryCall item store cf fault =
        Except.ok (manageInventory item store fault) ∧
      ((∃ p, manageInventoryRaw item store fault = Except.ok p ∧
          manageInventory item store fault = p) ∨
       (∃ e, manageInventoryRaw item store fault = Except.error e ∧
          manageInventory item store fault = ("Error: " ++ e, store)))) ∧
    (∀ e, cf = some e → manageInventoryCall item store cf fault = Except.error e) := by
  constructor
  · intro hcf
    subst hcf
    refine ⟨rfl, ?_⟩
    cases h : manageInventoryRaw item store fault with
    | ok p => exact .inl ⟨p, rfl, by simp [manageInventory, h]⟩
    | error e => exact .inr ⟨e, rfl, by simp [manageInventory, h]⟩
  · intro e hcf
    subst hcf
    rfl

/-- Claim C9 witness: with a healthy connection and a disk fault inside the
try block, the call still returns a string result normally. -/
theorem fault_handling_boundary_witness :
    manageInventoryCall ⟨"add", none, some "Widget", some 5⟩ initStore none
        (some "disk I/O error") =
      Except.ok (manageInventory ⟨"add", none, some "Widget", some 5⟩ initStore
        (some "disk I/O error")) ∧
    ((∃ p, manageInventoryRaw ⟨"add", none, some "Widget", some 5⟩ initStore
          (some "disk I/O error") = Except.ok p ∧
        manageInventory ⟨"add", none, some "Widget", some 5⟩ initStore
          (some "disk I/O error") = p) ∨
     (∃ e, manageInventoryRaw ⟨"add", none, some "Widget", some 5⟩ initStore
          (some "disk I/O error") = Except.error e ∧
        manageInventory ⟨"add", none, some "Widget", some 5⟩ initStore
          (some "disk I/O error") = ("Error: " ++ e, initStore))) :=
  (fault_handling_boundary ⟨"add", none, some "Widget", some 5⟩ initStore none
    (some "disk I/O error")).1 rfl

/-- Claim C9 counterexample: a store fault in the pre-try prologue (failing
to open the database file) escapes as an uncaught exception; the call does
not return a string at all, let alone one of the form Error colon message,
refuting the original universal totality claim. -/
theorem connect_fault_propagates :
    manageInventoryCall ⟨"add", none, some "Widget", some 5⟩ initStore
        (some "unable to open database file") none =
      Except.error "unable to open database file" ∧
    manageInventoryCall ⟨"add", none, some "Widget", some 5⟩ initStore
        (some "unable to open database file") none ≠
      Except.ok ("Error: unable to open database file", initStore) := by
  refine ⟨rfl, ?_⟩
  intro h
  exact Except.noConfusion h

/-- Claim C10: frame property of update and delete.  For every such request,
store state and fault, a record whose id differs from the id the request
names is in the store after the call exactly when it was there before, on
success and failure branches alike. -/
theorem update_delete_frame (item : Item) (store : Store) (fault : Option String)
    (hop : pyLower item.operation = "update" ∨ pyLower item.operation = "delete") :
    ∀ r : Row, item.id ≠ some r.id →
      ((r ∈ (manageInventory item store fault).2.rows) ↔ r ∈ store.rows) := by
  intro r hne
  cases hraw : manageInventoryRaw item store fault with
  | error e =>
    rw [manage_store_fault item store fault e hraw]
  | ok p =>
    obtain ⟨m, st⟩ := p
    rw [manage_store_eq item store fault m st hraw]
    rcases raw_shape item store fault m st hraw with
      hst | ⟨hadd, _⟩ | ⟨i, n, q, hid, _, hst⟩ | ⟨i, hid, _, hst⟩
    · rw [hst]
    · rcases hop with hop | hop <;> rw [hop] at hadd <;> exact absurd hadd (by decide)
    · rw [hst]
      apply mem_updateRow_iff
      intro hri
      apply hne
      rw [hid, hri]
    · rw [hst]
      apply mem_deleteRow_iff
      intro hri
      apply hne
      rw [hid, hri]

/-- Claim C10 witness: deleting id 1 from a two-row store keeps the row with
id 2 in place. -/
theorem update_delete_frame_witness :
    (⟨2, "Bolt", 7⟩ : Row) ∈
        (manageInventory ⟨"delete", some 1, none, none⟩
          ⟨[⟨1, "Widget", 5⟩, ⟨2, "Bolt", 7⟩], 3⟩ none).2.rows ↔
      (⟨2, "Bolt", 7⟩ : Row) ∈ (⟨[⟨1, "Widget", 5⟩, ⟨2, "Bolt", 7⟩], 3⟩ : Store).rows :=
  update_delete_frame ⟨"delete", some 1, none, none⟩
    ⟨[⟨1, "Widget", 5⟩, ⟨2, "Bolt", 7⟩], 3⟩ none (Or.inr (by decide))
    ⟨2, "Bolt", 7⟩ (by decide)
